import Mathlib

/-!
Verification of the build-orchestration engine of `build_toolchain.py`
(cross-compiler toolchain builder).  The Python source is shallowly embedded:
pure helpers become Lean functions; the effectful parts (downloads, file
system, external commands) are modelled as explicit state passing over a
`World` record together with an event trace, and fallible code returns
`Except`.
-/

namespace BuildToolchain

/-! ## Target triple parsing (`TargetArchitecture`) -/

/-- Splitting a character list on `'-'`, mirroring Python's `str.split('-')`:
the result is never empty, an empty input gives `[[]]`, and consecutive
dashes give empty fields. -/
def splitDash : List Char → List (List Char)
  | [] => [[]]
  | c :: rest =>
    if c = '-' then [] :: splitDash rest
    else
      match splitDash rest with
      | [] => [[c]]
      | h :: t => (c :: h) :: t

/-- `triple.split('-')` from `parse_triple`, as a list of strings. -/
def split_triple (s : String) : List String :=
  (splitDash s.data).map List.asString

/-- The parsed target triple record (`TargetArchitecture` in the source). -/
structure TargetArchitecture where
  triple : String
  arch : String
  vendor : String
  os : String
  env : String
deriving DecidableEq, Repr

/-- `TargetArchitecture.parse_triple`: `arch = parts[0]`,
`vendor = parts[1] if len(parts) > 1 else 'unknown'`,
`os = parts[2] if len(parts) > 2 else 'none'`,
`env = parts[3] if len(parts) > 3 else 'gnu'`.
`parts[0]` would raise `IndexError` on an empty field list (`none` here);
Python's `split` never produces that. -/
def parse_triple (triple : String) : Option TargetArchitecture :=
  match split_triple triple with
  | [] => none
  | arch :: rest =>
    some { triple := triple
           arch := arch
           vendor := rest.getD 0 "unknown"
           os := rest.getD 1 "none"
           env := rest.getD 2 "gnu" }

/-- `TargetArchitecture.is_bare_metal`: `os in ['elf', 'none', 'eabi']`. -/
def TargetArchitecture.is_bare_metal (t : TargetArchitecture) : Bool :=
  t.os ∈ ["elf", "none", "eabi"]

/-- `TargetArchitecture.is_linux`: `os == 'linux'`. -/
def TargetArchitecture.is_linux (t : TargetArchitecture) : Bool :=
  t.os == "linux"

/-- `TargetArchitecture.is_windows`: `os == 'mingw32' or env == 'mingw32'`. -/
def TargetArchitecture.is_windows (t : TargetArchitecture) : Bool :=
  t.os == "mingw32" || t.env == "mingw32"

theorem splitDash_ne_nil (cs : List Char) : splitDash cs ≠ [] := by
  induction cs with
  | nil => simp [splitDash]
  | cons c rest ih =>
    simp only [splitDash]
    split
    · simp
    · split <;> simp

theorem split_triple_ne_nil (s : String) : split_triple s ≠ [] := by
  simp [split_triple, splitDash_ne_nil]

theorem splitDash_no_dash (cs : List Char) (h : '-' ∉ cs) : splitDash cs = [cs] := by
  induction cs with
  | nil => simp [splitDash]
  | cons c rest ih =>
    simp only [List.mem_cons, not_or] at h
    simp only [splitDash]
    rw [if_neg (fun hc => h.1 hc.symm), ih h.2]

/-- Parsing is total: `split_triple` never returns the empty list, so the
`none` branch of `parse_triple` is unreachable. -/
theorem parse_triple_total (s : String) : (parse_triple s).isSome := by
  unfold parse_triple
  rcases hs : split_triple s with _ | ⟨a, rest⟩
  · exact absurd hs (split_triple_ne_nil s)
  · rfl

/-- C2 (counterexample): on the 2-field triple `"x86_64-elf"` the second
field becomes the *vendor* (`"elf"`), and `os` takes the default `"none"` —
refuting the claim that the missing vendor takes `"unknown"` and the second
field is interpreted as the OS. -/
theorem c2_counterexample :
    (parse_triple "x86_64-elf").map TargetArchitecture.vendor = some "elf"
    ∧ (parse_triple "x86_64-elf").map TargetArchitecture.os = some "none"
    ∧ (some "elf" : Option String) ≠ some "unknown"
    ∧ (some "none" : Option String) ≠ some "elf" := by
  refine ⟨by decide, by decide, by decide, by decide⟩

/-- C2 (amended): for `"x86_64-elf"` parsing yields `arch = x86_64`,
`vendor = elf` (a 2-field triple puts its second field in the vendor slot),
`os = none` and `env = gnu` (defaults), and `is_bare_metal = true` (because
the defaulted `os = "none"` is in the bare-metal set). -/
theorem c2_parse_two_field_triple :
    parse_triple "x86_64-elf" =
      some { triple := "x86_64-elf", arch := "x86_64", vendor := "elf"
             os := "none", env := "gnu" }
    ∧ (parse_triple "x86_64-elf").map TargetArchitecture.is_bare_metal = some true := by
  refine ⟨by decide, by decide⟩

/-- C7 (counterexample): on the 4-field triple `"x86_64-pc-elf-mingw32"`
both `is_bare_metal` (from `os = "elf"`) and `is_windows` (from
`env = "mingw32"`) hold, refuting mutual exclusivity; and
`"x86_64-pc-elf-gnu"` has the same `os` but `is_windows = false`, so
`is_windows` is not determined by the OS field alone. -/
theorem c7_counterexample :
    (parse_triple "x86_64-pc-elf-mingw32").map
        (fun t => t.is_bare_metal && t.is_windows) = some true
    ∧ (parse_triple "x86_64-pc-elf-gnu").map TargetArchitecture.os
        = (parse_triple "x86_64-pc-elf-mingw32").map TargetArchitecture.os
    ∧ (parse_triple "x86_64-pc-elf-gnu").map TargetArchitecture.is_windows
        = some false := by
  refine ⟨by decide, by decide, by decide⟩

/-- C7 (amended): for every string with 2–4 dash-separated fields, parsing
is total, `is_bare_metal` and `is_linux` are determined by the `os` field
alone and are mutually exclusive, while `is_windows` is a function of `os`
*and* `env` (true iff either is `"mingw32"`) and can therefore overlap the
other two predicates. -/
theorem c7_parse_total_and_os_predicates (s : String)
    (_h2 : 2 ≤ (split_triple s).length) (_h4 : (split_triple s).length ≤ 4) :
    (parse_triple s).isSome
    ∧ (∀ t, parse_triple s = some t → ¬(t.is_bare_metal ∧ t.is_linux))
    ∧ (∀ t t' : TargetArchitecture, t.os = t'.os →
        t.is_bare_metal = t'.is_bare_metal ∧ t.is_linux = t'.is_linux)
    ∧ (∀ t : TargetArchitecture,
        t.is_windows = (t.os == "mingw32" || t.env == "mingw32")) := by
  refine ⟨parse_triple_total s, ?_, ?_, fun t => rfl⟩
  · intro t _ hboth
    obtain ⟨hb, hl⟩ := hboth
    simp only [TargetArchitecture.is_linux, beq_iff_eq] at hl
    simp only [TargetArchitecture.is_bare_metal, hl] at hb
    simp at hb
  · intro t t' hos
    constructor
    · simp [TargetArchitecture.is_bare_metal, hos]
    · simp [TargetArchitecture.is_linux, hos]

/-- Witness for `c7_parse_total_and_os_predicates` at the 3-field triple
`"x86_64-linux-gnu"`. -/
theorem c7_parse_total_and_os_predicates_witness :
    (parse_triple "x86_64-linux-gnu").isSome
    ∧ (∀ t, parse_triple "x86_64-linux-gnu" = some t →
        ¬(t.is_bare_metal ∧ t.is_linux))
    ∧ (∀ t t' : TargetArchitecture, t.os = t'.os →
        t.is_bare_metal = t'.is_bare_metal ∧ t.is_linux = t'.is_linux)
    ∧ (∀ t : TargetArchitecture,
        t.is_windows = (t.os == "mingw32" || t.env == "mingw32")) :=
  c7_parse_total_and_os_predicates "x86_64-linux-gnu" (by decide) (by decide)

/-- C10: parsing is total on *every* input string; a dash-free string
becomes the architecture with all other fields defaulted
(`unknown`/`none`/`gnu`); and for a string with more than four fields the
fields past the fourth are silently ignored (the four slots are exactly the
first four fields, no default fires, nothing is rejected). -/
theorem c10_parse_total_on_all_strings (s : String) :
    (parse_triple s).isSome
    ∧ ('-' ∉ s.data → parse_triple s =
        some { triple := s, arch := s, vendor := "unknown"
               os := "none", env := "gnu" })
    ∧ (4 < (split_triple s).length → parse_triple s =
        some { triple := s
               arch := (split_triple s).getD 0 ""
               vendor := (split_triple s).getD 1 ""
               os := (split_triple s).getD 2 ""
               env := (split_triple s).getD 3 "" }) := by
  refine ⟨parse_triple_total s, ?_, ?_⟩
  · intro hnd
    have hsplit : split_triple s = [s] := by
      simp only [split_triple, splitDash_no_dash s.data hnd, List.map_cons,
        List.map_nil]
      cases s
      rfl
    simp [parse_triple, hsplit, List.getD]
  · intro hlen
    unfold parse_triple
    rcases hs : split_triple s with _ | ⟨a, rest⟩
    · exact absurd hs (split_triple_ne_nil s)
    · rcases rest with _ | ⟨b, rest1⟩
      · rw [hs] at hlen; simp at hlen
      · rcases rest1 with _ | ⟨c, rest2⟩
        · rw [hs] at hlen; simp at hlen
        · rcases rest2 with _ | ⟨d, rest3⟩
          · rw [hs] at hlen; simp at hlen
          · simp [hs, List.getD]

/-- Witness for `c10_parse_total_on_all_strings` at a dash-free string and
at a 6-field string. -/
theorem c10_parse_total_on_all_strings_witness :
    (parse_triple "x86_64").isSome
    ∧ parse_triple "x86_64" =
        some { triple := "x86_64", arch := "x86_64", vendor := "unknown"
               os := "none", env := "gnu" }
    ∧ parse_triple "a-b-c-d-e-f" =
        some { triple := "a-b-c-d-e-f", arch := "a", vendor := "b"
               os := "c", env := "d" } := by
  refine ⟨(c10_parse_total_on_all_strings "x86_64").1,
    (c10_parse_total_on_all_strings "x86_64").2.1 (by decide), ?_⟩
  have h := (c10_parse_total_on_all_strings "a-b-c-d-e-f").2.2 (by decide)
  simpa using h

/-! ## Build configuration (`BuildConfig`) and its derivation -/

/-- `ToolchainType` enum. -/
inductive ToolchainType where
  | GCC
  | LLVM
deriving DecidableEq, Repr

/-- `CLibrary` enum. -/
inductive CLibrary where
  | GLIBC
  | NEWLIB
  | MUSL
  | NONE
deriving DecidableEq, Repr

/-- The `.value` string of a `CLibrary` member. -/
def CLibrary.value : CLibrary → String
  | .GLIBC => "glibc"
  | .NEWLIB => "newlib"
  | .MUSL => "musl"
  | .NONE => "none"

/-- The `BuildConfig` dataclass (the fields the orchestration core reads).
Paths are plain strings joined with `/`.  The source's `prefix` field is
called `installPrefix` here because `prefix` is a reserved word in Lean.
The dataclass default for `jobs` is `os.cpu_count() or 4`; the
host-independent default `4` is used here. -/
structure BuildConfig where
  toolchain : ToolchainType := ToolchainType.GCC
  target : String := "x86_64-elf"
  installPrefix : String := "./install"
  gcc_version : String := "13.2.0"
  binutils_version : String := "2.42"
  llvm_version : String := "17.0.6"
  c_library : CLibrary := CLibrary.NONE
  libc_version : Option String := none
  enable_languages : List String := ["c", "c++"]
  enable_components : List String := []
  disable_components : List String := []
  jobs : Nat := 4
  clean_build : Bool := false
  enable_lto : Bool := false
  enable_debug : Bool := false
  enable_assertions : Bool := false
  sysroot : Option String := none
  with_sysroot : Bool := false
  configure_flags : List String := []
  cmake_flags : List String := []
  source_dir : String := "./sources"
  build_dir : String := "./build"
  download_cache : String := "./.cache/downloads"
deriving DecidableEq, Repr

/-- The hardcoded default libc version of each family
(`__post_init__`, first block). -/
def defaultLibcVersion : CLibrary → Option String
  | .GLIBC => some "2.38"
  | .NEWLIB => some "4.3.0"
  | .MUSL => some "1.2.4"
  | .NONE => none

/-- `BuildConfig.__post_init__`: default libc version when `libc_version`
is `None`, derived sysroot `prefix/target/sysroot` when requested but not
given, and for LLVM fixed default enable/disable component sets when the
user supplied none.  It raises no exception. -/
def postInit (c : BuildConfig) : BuildConfig :=
  let c :=
    match c.libc_version with
    | none => { c with libc_version := defaultLibcVersion c.c_library }
    | some _ => c
  let c :=
    if c.sysroot = none ∧ c.with_sysroot then
      { c with sysroot := some (c.installPrefix ++ "/" ++ c.target ++ "/sysroot") }
    else c
  if c.toolchain = ToolchainType.LLVM then
    let c :=
      if c.enable_components = [] then
        { c with enable_components := ["clang", "lld", "compiler-rt"] }
      else c
    if c.disable_components = [] then
      { c with disable_components := ["libcxx", "libcxxabi", "libunwind"] }
    else c
  else c

/-- Configuration derivation as a fallible step.  The body of
`__post_init__` contains no `raise`, so the embedding is constantly `ok`:
derivation can never fail. -/
def derive (c : BuildConfig) : Except String BuildConfig :=
  Except.ok (postInit c)

/-- The parsed `target_arch` stored by `__post_init__` (parsing is total,
so the default branch is unreachable). -/
def BuildConfig.target_arch (c : BuildConfig) : TargetArchitecture :=
  match parse_triple c.target with
  | some t => t
  | none => { triple := c.target, arch := c.target, vendor := "unknown"
              os := "none", env := "gnu" }

/-- `LLVMBuilder._get_llvm_target`'s fixed lookup table. -/
def arch_map : List (String × String) :=
  [("x86_64", "X86"), ("i386", "X86"), ("i686", "X86"),
   ("aarch64", "AArch64"), ("arm", "ARM"),
   ("riscv32", "RISCV"), ("riscv64", "RISCV"),
   ("mips", "Mips"), ("powerpc", "PowerPC")]

/-- Association-list lookup (Python `dict.get`). -/
def alookup (k : String) : List (String × String) → Option String
  | [] => none
  | (k', v) :: rest => if k = k' then some v else alookup k rest

/-- `str.lower()` on the ASCII range (architecture names are ASCII),
character by character. -/
def strToLower (s : String) : String :=
  (s.data.map Char.toLower).asString

/-- `LLVMBuilder._get_llvm_target`: `arch_map.get(arch.lower(), 'X86;AArch64;ARM;RISCV')`. -/
def get_llvm_target (arch : String) : String :=
  match alookup (strToLower arch) arch_map with
  | some t => t
  | none => "X86;AArch64;ARM;RISCV"

/-- C8: with the LLVM family and no explicit component lists,
`__post_init__` installs the fixed enable set `[clang, lld, compiler-rt]`
and disable set `[libcxx, libcxxabi, libunwind]`; the backend lookup maps
`riscv64` to `RISCV`; and any architecture whose lower-cased name is absent
from the table falls back to the broad `X86;AArch64;ARM;RISCV` set instead
of failing. -/
theorem c8_llvm_defaults_and_backend_lookup :
    (∀ c : BuildConfig, c.toolchain = ToolchainType.LLVM →
      c.enable_components = [] → c.disable_components = [] →
      (postInit c).enable_components = ["clang", "lld", "compiler-rt"]
      ∧ (postInit c).disable_components = ["libcxx", "libcxxabi", "libunwind"])
    ∧ get_llvm_target "riscv64" = "RISCV"
    ∧ (∀ arch : String, alookup (strToLower arch) arch_map = none →
        get_llvm_target arch = "X86;AArch64;ARM;RISCV") := by
  refine ⟨?_, by decide, ?_⟩
  · intro c htc he hd
    simp only [postInit]
    rcases hv : c.libc_version with _ | v <;>
      simp only [hv] <;>
      split <;>
      simp_all
  · intro arch h
    simp [get_llvm_target, h]

/-- Witness for `c8_llvm_defaults_and_backend_lookup`: the default LLVM
configuration and the unmapped architecture `sparc`. -/
theorem c8_llvm_defaults_and_backend_lookup_witness :
    ((postInit { toolchain := ToolchainType.LLVM }).enable_components
        = ["clang", "lld", "compiler-rt"]
      ∧ (postInit { toolchain := ToolchainType.LLVM }).disable_components
        = ["libcxx", "libcxxabi", "libunwind"])
    ∧ get_llvm_target "sparc" = "X86;AArch64;ARM;RISCV" :=
  ⟨c8_llvm_defaults_and_backend_lookup.1 { toolchain := ToolchainType.LLVM }
      rfl rfl rfl,
   c8_llvm_defaults_and_backend_lookup.2.2 "sparc" (by decide)⟩

/-! ## Effect model: world state and event traces

Downloads, the file system and external commands are modelled by explicit
state passing.  A file's content is abstracted by its SHA-256 digest, so
`hashlib.sha256(f.read()).hexdigest()` is the stored string itself. -/

/-- Observable events of a run. -/
inductive Ev where
  /-- A network retrieval of `url` was attempted (`urllib.request.urlretrieve`). -/
  | netGet (url : String)
  /-- An existing cached file was reused without downloading. -/
  | cacheReuse (dest : String)
  /-- A SHA-256 digest of the file at `path` was computed and compared. -/
  | hashCheck (path : String)
  /-- A stale file at `path` was deleted (`dest.unlink()`). -/
  | staleDelete (path : String)
  /-- An external command `args` was invoked with working directory `cwd`. -/
  | cmd (cwd : String) (args : List String)
deriving DecidableEq, Repr

/-- The ambient state: cached files (path ↦ digest), existing directories,
the network (url ↦ digest of the file it serves; absent = download fails),
and the set of external commands that exit non-zero. -/
structure World where
  files : List (String × String) := []
  dirs : List String := []
  net : List (String × String) := []
  execFail : List (String × List String) := []
deriving DecidableEq, Repr

/-- A step of the engine: it may fail with a message, updates the world and
emits a trace of events. -/
abbrev M (α : Type) := World → Except String α × World × List Ev

instance : Monad M where
  pure a := fun w => (Except.ok a, w, [])
  bind x f := fun w =>
    match x w with
    | (Except.ok a, w1, t1) =>
      match f a w1 with
      | (r, w2, t2) => (r, w2, t1 ++ t2)
    | (Except.error e, w1, t1) => (Except.error e, w1, t1)

def putFileW (p c : String) (w : World) : World :=
  { w with files := (p, c) :: w.files }

def rmFileW (p : String) (w : World) : World :=
  { w with files := w.files.filter (fun kv => kv.fst ≠ p) }

def addDirW (d : String) (w : World) : World :=
  { w with dirs := d :: w.dirs }

/-- The download-and-verify tail of `download_file` (everything after the
cached-file check): retrieve `url` into `dest`, raising on network failure,
then, when a checksum was supplied, verify it, deleting the file and
raising on mismatch. -/
def fetchVerify (url dest : String) (sha256 : Option String) (w : World) :
    Except String Bool × World × List Ev :=
  match alookup url w.net with
  | none => (Except.error ("Failed to download " ++ url), w, [Ev.netGet url])
  | some c =>
    let w1 := putFileW dest c w
    match sha256 with
    | some s =>
      if c = s then (Except.ok true, w1, [Ev.netGet url, Ev.hashCheck dest])
      else (Except.error ("Checksum verification failed for " ++ dest),
            rmFileW dest w1, [Ev.netGet url, Ev.hashCheck dest, Ev.staleDelete dest])
    | none => (Except.ok true, w1, [Ev.netGet url])

/-- `download_file(url, dest, sha256)`: if `dest` exists and a checksum was
supplied, recompute and compare — reuse on match, delete the stale file and
fall through to the download on mismatch; if `dest` exists and no checksum
was supplied, reuse it unconditionally; otherwise download (and verify). -/
def download_file (url dest : String) (sha256 : Option String) : M Bool := fun w =>
  match alookup dest w.files, sha256 with
  | some h, some s =>
    if h = s then (Except.ok true, w, [Ev.hashCheck dest, Ev.cacheReuse dest])
    else
      match fetchVerify url dest sha256 (rmFileW dest w) with
      | (r, w2, t) => (r, w2, Ev.hashCheck dest :: Ev.staleDelete dest :: t)
  | some _, none => (Except.ok true, w, [Ev.cacheReuse dest])
  | none, _ => fetchVerify url dest sha256 w

/-- `run_command(cmd, cwd=...)`: invoke an external command; a non-zero
exit (membership in `execFail`) raises `CalledProcessError`. -/
def run_command (cmd : List String) (cwd : String) : M Unit := fun w =>
  (if (cwd, cmd) ∈ w.execFail then Except.error "Command failed" else Except.ok (),
   w, [Ev.cmd cwd cmd])

/-- Whether `sfx` is a (contiguous, final) suffix of the list: compare it
against every tail. -/
def listIsSuffix (sfx : List Char) : List Char → Bool
  | [] => sfx.isEmpty
  | l@(_ :: rest) => sfx == l || listIsSuffix sfx rest

/-- `s.endswith(sfx)` on the character list (`Path.suffix` membership tests
are expressed as suffix tests on the file name). -/
def strEndsWith (s sfx : String) : Bool :=
  listIsSuffix sfx.data s.data

/-- Whether the first character list is an initial segment of the second. -/
def listStartsWith : List Char → List Char → Bool
  | [], _ => true
  | _ :: _, [] => false
  | p :: ps, c :: cs => p == c && listStartsWith ps cs

/-- Python's substring containment `pat in s`, on character lists. -/
def listContains (pat : List Char) : List Char → Bool
  | [] => pat.isEmpty
  | c :: rest => listStartsWith pat (c :: rest) || listContains pat rest

/-- `extract_archive(archive, dest)`: tar-family containers
(`.gz`/`.bz2`/`.xz` suffix, or `.tar.` in the name) and `.zip` are
extracted (the unpacking itself is abstracted as creating `dest`); any
other suffix is an immediate fatal error. -/
def extract_archive (archive dest : String) : M Unit := fun w =>
  if strEndsWith archive ".gz" || strEndsWith archive ".bz2"
      || strEndsWith archive ".xz" || listContains ".tar.".data archive.data then
    (Except.ok (), addDirW dest w, [])
  else if strEndsWith archive ".zip" then
    (Except.ok (), addDirW dest w, [])
  else
    (Except.error ("Unsupported archive format: " ++ archive), w, [])

def isNetGet : Ev → Bool
  | .netGet _ => true
  | _ => false

/-- Number of network retrievals in a trace. -/
def countNetGet (t : List Ev) : Nat := (t.filter isNetGet).length

theorem alookup_putFileW (p c : String) (w : World) :
    alookup p (putFileW p c w).files = some c := by
  simp [putFileW, alookup]

/-- C5: when `dest` is already cached with digest `h` and an expected
checksum `s` is supplied, `download_file` reuses the cached file exactly
when `h = s`; on mismatch it deletes the stale file, performs exactly one
network download, never reuses the cache, and any successful result leaves
`dest` holding the verified digest `s` (not the stale `h`). -/
theorem c5_download_checksum_policy (url dest h s : String) (w : World)
    (hc : alookup dest w.files = some h) :
    (h = s → download_file url dest (some s) w
      = (Except.ok true, w, [Ev.hashCheck dest, Ev.cacheReuse dest]))
    ∧ (h ≠ s →
        countNetGet (download_file url dest (some s) w).2.2 = 1
        ∧ Ev.staleDelete dest ∈ (download_file url dest (some s) w).2.2
        ∧ Ev.cacheReuse dest ∉ (download_file url dest (some s) w).2.2
        ∧ ∀ b, (download_file url dest (some s) w).1 = Except.ok b →
            alookup dest (download_file url dest (some s) w).2.1.files = some s) := by
  constructor
  · intro he
    subst he
    simp [download_file, hc]
  · intro hne
    have hw : download_file url dest (some s) w
        = match fetchVerify url dest (some s) (rmFileW dest w) with
          | (r, w2, t) => (r, w2, Ev.hashCheck dest :: Ev.staleDelete dest :: t) := by
      simp [download_file, hc, hne]
    rcases hnet : alookup url (rmFileW dest w).net with _ | c
    · rw [hw]
      simp [fetchVerify, hnet, countNetGet, isNetGet]
    · by_cases hcs : c = s
      · rw [hw]
        subst hcs
        simp [fetchVerify, hnet, countNetGet, isNetGet, alookup_putFileW]
      · rw [hw]
        simp [fetchVerify, hnet, hcs, countNetGet, isNetGet]

/-- Witness for `c5_download_checksum_policy`: a cached digest `"aaa"`
mismatching the expected `"bbb"`, the network serving `"bbb"`. -/
theorem c5_download_checksum_policy_witness :
    countNetGet (download_file "u" "d" (some "bbb")
      { files := [("d", "aaa")], net := [("u", "bbb")] }).2.2 = 1
    ∧ Ev.staleDelete "d" ∈ (download_file "u" "d" (some "bbb")
      { files := [("d", "aaa")], net := [("u", "bbb")] }).2.2
    ∧ Ev.cacheReuse "d" ∉ (download_file "u" "d" (some "bbb")
      { files := [("d", "aaa")], net := [("u", "bbb")] }).2.2
    ∧ ∀ b, (download_file "u" "d" (some "bbb")
        { files := [("d", "aaa")], net := [("u", "bbb")] }).1 = Except.ok b →
        alookup "d" (download_file "u" "d" (some "bbb")
          { files := [("d", "aaa")], net := [("u", "bbb")] }).2.1.files = some "bbb" :=
  (c5_download_checksum_policy "u" "d" "aaa" "bbb"
    { files := [("d", "aaa")], net := [("u", "bbb")] } (by decide)).2 (by decide)

/-! ## Source acquisition (`SourceManager`) -/

namespace SourceManager

def GCC_MIRRORS : List String :=
  ["https://ftp.gnu.org/gnu/gcc/",
   "https://mirrors.kernel.org/gnu/gcc/",
   "https://ftpmirror.gnu.org/gcc/"]

def BINUTILS_MIRRORS : List String :=
  ["https://ftp.gnu.org/gnu/binutils/",
   "https://mirrors.kernel.org/gnu/binutils/"]

def LLVM_MIRRORS : List String :=
  ["https://github.com/llvm/llvm-project/releases/download/llvmorg-",
   "https://mirrors.edge.kernel.org/pub/llvm/"]

def GLIBC_MIRRORS : List String :=
  ["https://ftp.gnu.org/gnu/glibc/",
   "https://mirrors.kernel.org/gnu/glibc/"]

def NEWLIB_MIRRORS : List String :=
  ["https://sourceware.org/pub/newlib/",
   "https://mirrors.kernel.org/sourceware/newlib/"]

def MUSL_MIRRORS : List String :=
  ["https://musl.libc.org/releases/"]

end SourceManager

/-- The `for mirror in MIRRORS: try download / except continue / else raise`
loop shared by the acquisition methods: returns `true` as soon as one
download succeeds, `false` when every mirror raised (the `for`-`else`
branch); it never raises itself. -/
def tryMirrorList : List String → String → M Bool
  | [], _ => fun w => (Except.ok false, w, [])
  | u :: rest, dest => fun w =>
    match download_file u dest none w with
    | (Except.ok _, w1, t) => (Except.ok true, w1, t)
    | (Except.error _, w1, t) =>
      match tryMirrorList rest dest w1 with
      | (r, w2, t2) => (r, w2, t ++ t2)

def gccArchiveName (c : BuildConfig) : String :=
  "gcc-" ++ c.gcc_version ++ ".tar.xz"

def gccCacheFile (c : BuildConfig) : String :=
  c.download_cache ++ "/" ++ gccArchiveName c

def gccUrls (c : BuildConfig) : List String :=
  SourceManager.GCC_MIRRORS.map
    (fun m => m ++ "gcc-" ++ c.gcc_version ++ "/" ++ gccArchiveName c)

def gccExtractDir (c : BuildConfig) : String :=
  c.source_dir ++ "/gcc-" ++ c.gcc_version

/-- The acquisition block the `get_*_source` methods all repeat: mirror
loop into the cache file, `for`-`else` fatal error when every mirror
failed, then extraction keyed on the existence of the extraction directory
(extraction is assumed to unpack the archive's conventional top-level
directory, which the caller then returns). -/
def fetchExtract (urls : List String)
    (cacheFile extractDir srcDir errMsg : String) : M String := fun w =>
  match tryMirrorList urls cacheFile w with
  | (Except.ok true, w1, t) =>
    if extractDir ∈ w1.dirs then (Except.ok extractDir, w1, t)
    else
      match extract_archive cacheFile srcDir w1 with
      | (Except.ok _, w2, t2) => (Except.ok extractDir, addDirW extractDir w2, t ++ t2)
      | (Except.error e, w2, t2) => (Except.error e, w2, t ++ t2)
  | (Except.ok false, w1, t) => (Except.error errMsg, w1, t)
  | (Except.error e, w1, t) => (Except.error e, w1, t)

/-- `SourceManager.get_gcc_source`. -/
def get_gcc_source (c : BuildConfig) : M String :=
  fetchExtract (gccUrls c) (gccCacheFile c) (gccExtractDir c) c.source_dir
    ("Failed to download GCC " ++ c.gcc_version ++ " from any mirror")

def binutilsArchiveName (c : BuildConfig) : String :=
  "binutils-" ++ c.binutils_version ++ ".tar.xz"

def binutilsCacheFile (c : BuildConfig) : String :=
  c.download_cache ++ "/" ++ binutilsArchiveName c

def binutilsUrls (c : BuildConfig) : List String :=
  SourceManager.BINUTILS_MIRRORS.map (fun m => m ++ binutilsArchiveName c)

def binutilsExtractDir (c : BuildConfig) : String :=
  c.source_dir ++ "/binutils-" ++ c.binutils_version

/-- `SourceManager.get_binutils_source` (same shape as the GCC one, with
`url = mirror + archive_name`). -/
def get_binutils_source (c : BuildConfig) : M String :=
  fetchExtract (binutilsUrls c) (binutilsCacheFile c) (binutilsExtractDir c)
    c.source_dir
    ("Failed to download Binutils " ++ c.binutils_version ++ " from any mirror")

def llvmName1 (c : BuildConfig) : String :=
  "llvm-project-" ++ c.llvm_version ++ ".src.tar.xz"

def llvmName2 (c : BuildConfig) : String :=
  "llvm-project-" ++ c.llvm_version ++ ".tar.xz"

/-- The LLVM mirror loop: per mirror, try the primary archive name and, on
failure, the alternative naming convention, before moving to the next
mirror; returns the archive name that succeeded, or `none` when every
mirror (under both names) failed. -/
def llvmMirrorLoop (c : BuildConfig) : List String → M (Option String)
  | [] => fun w => (Except.ok none, w, [])
  | m :: rest => fun w =>
    match download_file (m ++ c.llvm_version ++ "/" ++ llvmName1 c)
        (c.download_cache ++ "/" ++ llvmName1 c) none w with
    | (Except.ok _, w1, t) => (Except.ok (some (llvmName1 c)), w1, t)
    | (Except.error _, w1, t) =>
      match download_file (m ++ c.llvm_version ++ "/" ++ llvmName2 c)
          (c.download_cache ++ "/" ++ llvmName2 c) none w1 with
      | (Except.ok _, w2, t2) => (Except.ok (some (llvmName2 c)), w2, t ++ t2)
      | (Except.error _, w2, t2) =>
        match llvmMirrorLoop c rest w2 with
        | (r, w3, t3) => (r, w3, t ++ t2 ++ t3)

def llvmExtractDir (c : BuildConfig) : String :=
  c.source_dir ++ "/llvm-project-" ++ c.llvm_version

/-- `SourceManager.get_llvm_source`: mirror loop with the secondary naming
variant, then extraction of whichever archive succeeded. -/
def get_llvm_source (c : BuildConfig) : M String := fun w =>
  match llvmMirrorLoop c SourceManager.LLVM_MIRRORS w with
  | (Except.ok (some name), w1, t) =>
    if llvmExtractDir c ∈ w1.dirs then (Except.ok (llvmExtractDir c), w1, t)
    else
      match extract_archive (c.download_cache ++ "/" ++ name) c.source_dir w1 with
      | (Except.ok _, w2, t2) =>
        (Except.ok (llvmExtractDir c), addDirW (llvmExtractDir c) w2, t ++ t2)
      | (Except.error e, w2, t2) => (Except.error e, w2, t ++ t2)
  | (Except.ok none, w1, t) =>
    (Except.error ("Failed to download LLVM " ++ c.llvm_version
       ++ " from any mirror"), w1, t)
  | (Except.error e, w1, t) => (Except.error e, w1, t)

/-- The per-family body of `get_libc_source`: mirror loop, for-else fatal
error, extraction keyed on directory existence. -/
def libcFetch (c : BuildConfig) (mirrors : List String)
    (archiveName extractSub errMsg : String) : M (Option String) := fun w =>
  match fetchExtract (mirrors.map (fun m => m ++ archiveName))
      (c.download_cache ++ "/" ++ archiveName)
      (c.source_dir ++ "/" ++ extractSub) c.source_dir errMsg w with
  | (Except.ok d, w1, t) => (Except.ok (some d), w1, t)
  | (Except.error e, w1, t) => (Except.error e, w1, t)

/-- `SourceManager.get_libc_source`: `None` for the `none` family; a
missing or empty version raises `ValueError` *here* (first point of
detection); otherwise the family's mirrors/archive naming are used. -/
def get_libc_source (c : BuildConfig) : M (Option String) := fun w =>
  if c.c_library = CLibrary.NONE then (Except.ok none, w, [])
  else
    let version := c.libc_version.getD ""
    if version = "" then
      (Except.error ("Version required for " ++ c.c_library.value), w, [])
    else
      match c.c_library with
      | CLibrary.GLIBC =>
        libcFetch c SourceManager.GLIBC_MIRRORS ("glibc-" ++ version ++ ".tar.xz")
          ("glibc-" ++ version) ("Failed to download glibc " ++ version) w
      | CLibrary.NEWLIB =>
        libcFetch c SourceManager.NEWLIB_MIRRORS ("newlib-" ++ version ++ ".tar.gz")
          ("newlib-" ++ version) ("Failed to download newlib " ++ version) w
      | CLibrary.MUSL =>
        libcFetch c SourceManager.MUSL_MIRRORS ("musl-" ++ version ++ ".tar.gz")
          ("musl-" ++ version) ("Failed to download musl " ++ version) w
      | CLibrary.NONE => (Except.ok none, w, [])

theorem postInit_libc_version (c : BuildConfig) :
    (postInit c).libc_version =
      match c.libc_version with
      | none => defaultLibcVersion c.c_library
      | some v => some v := by
  rcases hv : c.libc_version with _ | v <;> simp only [postInit, hv] <;>
    (repeat' split) <;> simp_all

theorem postInit_c_library (c : BuildConfig) :
    (postInit c).c_library = c.c_library := by
  rcases hv : c.libc_version with _ | v <;> simp only [postInit, hv] <;>
    (repeat' split) <;> simp_all

/-- C4 (counterexample): with the glibc family and an explicitly supplied
*empty* version string, derivation completes without any error (there is no
validation in `__post_init__` at all), and the *later* acquisition phase
`get_libc_source` is the first point that raises the unresolvable-version
error — refuting "construction itself fails" and "no later phase is the
first point of detection". -/
theorem c4_counterexample :
    derive { c_library := CLibrary.GLIBC, libc_version := some "" } =
      Except.ok (postInit { c_library := CLibrary.GLIBC, libc_version := some "" })
    ∧ (postInit { c_library := CLibrary.GLIBC, libc_version := some "" }).libc_version
        = some ""
    ∧ (get_libc_source
        (postInit { c_library := CLibrary.GLIBC, libc_version := some "" }) {}).1
        = Except.error "Version required for glibc" := by
  refine ⟨rfl, by decide, rfl⟩

/-- C4 (amended): derivation never fails — `derive` is constantly `ok`;
an *omitted* version (`None`) is always resolvable because every non-`none`
family carries a hardcoded default; only an explicitly supplied empty
version survives derivation unresolved, and it is first rejected later, in
`SourceManager.get_libc_source`. -/
theorem c4_derivation_never_fails (c : BuildConfig) (w : World)
    (hfam : c.c_library ≠ CLibrary.NONE) :
    derive c = Except.ok (postInit c)
    ∧ (c.libc_version = none →
        (postInit c).libc_version = defaultLibcVersion c.c_library
        ∧ (defaultLibcVersion c.c_library).isSome)
    ∧ ((postInit c).libc_version.getD "" = "" →
        (get_libc_source (postInit c) w).1
          = Except.error ("Version required for " ++ (postInit c).c_library.value)) := by
  refine ⟨rfl, ?_, ?_⟩
  · intro hv
    refine ⟨by rw [postInit_libc_version, hv], ?_⟩
    rcases hf : c.c_library <;> first
      | exact absurd hf hfam
      | simp [defaultLibcVersion]
  · intro hv
    have hcl : (postInit c).c_library = c.c_library := postInit_c_library c
    unfold get_libc_source
    rw [if_neg (hcl ▸ hfam), if_pos hv]

/-- Witness for `c4_derivation_never_fails`: the glibc family with the
version omitted (default `2.38` resolves it), and the musl family with an
explicitly empty version (rejected only in `get_libc_source`). -/
theorem c4_derivation_never_fails_witness :
    ((postInit { c_library := CLibrary.GLIBC }).libc_version
        = defaultLibcVersion CLibrary.GLIBC
      ∧ (defaultLibcVersion CLibrary.GLIBC).isSome)
    ∧ (get_libc_source
        (postInit { c_library := CLibrary.MUSL, libc_version := some "" }) {}).1
        = Except.error ("Version required for "
            ++ (postInit { c_library := CLibrary.MUSL, libc_version := some "" }).c_library.value) :=
  ⟨(c4_derivation_never_fails { c_library := CLibrary.GLIBC } {} (by decide)).2.1 rfl,
   (c4_derivation_never_fails { c_library := CLibrary.MUSL, libc_version := some "" }
      {} (by decide)).2.2 (by decide)⟩

/-! ## Acquisition lemmas: mirror fallback, cache hits, no hash checks -/

theorem strData_append (a b : String) : (a ++ b).data = a.data ++ b.data := by
  cases a; cases b; rfl

theorem listIsSuffix_append (sfx b : List Char) (h : listIsSuffix sfx b = true)
    (a : List Char) : listIsSuffix sfx (a ++ b) = true := by
  induction a with
  | nil => simpa using h
  | cons x as ih => simp [listIsSuffix, ih]

theorem strEndsWith_append_right (a b sfx : String)
    (h : strEndsWith b sfx = true) : strEndsWith (a ++ b) sfx = true := by
  unfold strEndsWith at h ⊢
  rw [strData_append]
  exact listIsSuffix_append _ _ h _

theorem gccCacheFile_ends_xz (c : BuildConfig) :
    strEndsWith (gccCacheFile c) ".xz" = true := by
  unfold gccCacheFile gccArchiveName
  exact strEndsWith_append_right _ _ _ (strEndsWith_append_right _ _ _ (by decide))

/-- An archive whose name ends in `.xz` extracts successfully (tar branch),
adding the destination directory and emitting no events. -/
theorem extract_archive_xz (archive d : String) (w : World)
    (h : strEndsWith archive ".xz" = true) :
    extract_archive archive d w = (Except.ok (), addDirW d w, []) := by
  simp [extract_archive, h]

theorem download_file_none_cached (u d dg : String) (w : World)
    (h : alookup d w.files = some dg) :
    download_file u d none w = (Except.ok true, w, [Ev.cacheReuse d]) := by
  simp [download_file, h]

theorem download_file_none_miss_fail (u d : String) (w : World)
    (hf : alookup d w.files = none) (hn : alookup u w.net = none) :
    download_file u d none w
      = (Except.error ("Failed to download " ++ u), w, [Ev.netGet u]) := by
  simp [download_file, hf, fetchVerify, hn]

theorem download_file_none_miss_ok (u d dg : String) (w : World)
    (hf : alookup d w.files = none) (hn : alookup u w.net = some dg) :
    download_file u d none w = (Except.ok true, putFileW d dg w, [Ev.netGet u]) := by
  simp [download_file, hf, fetchVerify, hn]

theorem tryMirrorList_cached (u : String) (rest : List String) (d dg : String)
    (w : World) (h : alookup d w.files = some dg) :
    tryMirrorList (u :: rest) d w = (Except.ok true, w, [Ev.cacheReuse d]) := by
  simp [tryMirrorList, download_file_none_cached u d dg w h]

theorem tryMirrorList_all_fail (urls : List String) (d : String) (w : World)
    (hf : alookup d w.files = none) (hn : ∀ x ∈ urls, alookup x w.net = none) :
    tryMirrorList urls d w = (Except.ok false, w, urls.map Ev.netGet) := by
  induction urls with
  | nil => simp [tryMirrorList]
  | cons u rest ih =>
    have hu : alookup u w.net = none := hn u (by simp)
    have hrest : ∀ x ∈ rest, alookup x w.net = none :=
      fun x hx => hn x (by simp [hx])
    simp [tryMirrorList, download_file_none_miss_fail u d w hf hu, ih hrest]

theorem tryMirrorList_fallback (us : List String) (u : String) (vs : List String)
    (d dg : String) (w : World)
    (hf : alookup d w.files = none)
    (hus : ∀ x ∈ us, alookup x w.net = none)
    (hu : alookup u w.net = some dg) :
    tryMirrorList (us ++ u :: vs) d w
      = (Except.ok true, putFileW d dg w, us.map Ev.netGet ++ [Ev.netGet u]) := by
  induction us with
  | nil => simp [tryMirrorList, download_file_none_miss_ok u d dg w hf hu]
  | cons x xs ih =>
    have hx : alookup x w.net = none := hus x (by simp)
    have hxs : ∀ y ∈ xs, alookup y w.net = none :=
      fun y hy => hus y (by simp [hy])
    simp [tryMirrorList, download_file_none_miss_fail x d w hf hx, ih hxs]

theorem alookup_addDirW (p d : String) (w : World) :
    alookup p (addDirW d w).files = alookup p w.files := rfl

/-- `fetchExtract` after a cache hit: the first mirror's `download_file`
reuses the cached file, no network retrieval happens, the files are
untouched, and (when the archive extracts, e.g. an `.xz` name) the
extraction directory is returned. -/
theorem fetchExtract_cached (u : String) (rest : List String)
    (cf xd sd em dg : String) (w : World)
    (hc : alookup cf w.files = some dg)
    (hxz : strEndsWith cf ".xz" = true) :
    (fetchExtract (u :: rest) cf xd sd em w).1 = Except.ok xd
    ∧ (fetchExtract (u :: rest) cf xd sd em w).2.2 = [Ev.cacheReuse cf]
    ∧ (fetchExtract (u :: rest) cf xd sd em w).2.1.files = w.files := by
  unfold fetchExtract
  rw [tryMirrorList_cached u rest cf dg w hc]
  by_cases hd : xd ∈ w.dirs
  · simp [hd]
  · simp [hd, extract_archive_xz cf sd w hxz, addDirW]

/-- `fetchExtract` with the first `us` mirrors failing and mirror `u`
succeeding: the downloads attempted are exactly `us` then `u`, the
artifact delivered by `u` ends up in the cache, and the extraction
directory is returned. -/
theorem fetchExtract_fallback (us : List String) (u : String) (vs : List String)
    (cf xd sd em dg : String) (w : World)
    (hf : alookup cf w.files = none)
    (hus : ∀ x ∈ us, alookup x w.net = none)
    (hu : alookup u w.net = some dg)
    (hxz : strEndsWith cf ".xz" = true) :
    (fetchExtract (us ++ u :: vs) cf xd sd em w).1 = Except.ok xd
    ∧ (fetchExtract (us ++ u :: vs) cf xd sd em w).2.2
        = us.map Ev.netGet ++ [Ev.netGet u]
    ∧ alookup cf (fetchExtract (us ++ u :: vs) cf xd sd em w).2.1.files = some dg := by
  unfold fetchExtract
  rw [tryMirrorList_fallback us u vs cf dg w hf hus hu]
  by_cases hd : xd ∈ (putFileW cf dg w).dirs
  · simp [hd, alookup_putFileW]
  · simp [hd, extract_archive_xz cf sd _ hxz, alookup_addDirW, alookup_putFileW]

/-- `fetchExtract` when every mirror fails and nothing is cached: the
for-else fatal error. -/
theorem fetchExtract_all_fail (urls : List String) (cf xd sd em : String)
    (w : World) (hf : alookup cf w.files = none)
    (hn : ∀ x ∈ urls, alookup x w.net = none) :
    fetchExtract urls cf xd sd em w = (Except.error em, w, urls.map Ev.netGet) := by
  unfold fetchExtract
  rw [tryMirrorList_all_fail urls cf w hf hn]

def isHashCheck : Ev → Bool
  | .hashCheck _ => true
  | _ => false

/-- Whether a trace contains any SHA-256 verification event. -/
def hasHashCheck (t : List Ev) : Bool := t.any isHashCheck

theorem hasHashCheck_append (a b : List Ev) :
    hasHashCheck (a ++ b) = (hasHashCheck a || hasHashCheck b) := by
  simp [hasHashCheck]

theorem hasHashCheck_download_file_none (u d : String) (w : World) :
    hasHashCheck (download_file u d none w).2.2 = false := by
  unfold download_file
  rcases hf : alookup d w.files with _ | dg
  · unfold fetchVerify
    rcases hn : alookup u w.net with _ | c <;> simp [hasHashCheck, isHashCheck]
  · simp [hasHashCheck, isHashCheck]

theorem hasHashCheck_tryMirrorList (urls : List String) (d : String) (w : World) :
    hasHashCheck (tryMirrorList urls d w).2.2 = false := by
  induction urls generalizing w with
  | nil => simp [tryMirrorList, hasHashCheck]
  | cons u rest ih =>
    unfold tryMirrorList
    rcases hd : download_file u d none w with ⟨r, w1, t⟩
    have ht : hasHashCheck t = false := by
      have := hasHashCheck_download_file_none u d w
      rw [hd] at this
      exact this
    rcases r with e | b
    · rcases hm : tryMirrorList rest d w1 with ⟨r2, w2, t2⟩
      have ht2 : hasHashCheck t2 = false := by
        have := ih w1
        rw [hm] at this
        exact this
      simp [hd, hm, hasHashCheck_append, ht, ht2]
    · simpa [hd] using ht

theorem extract_archive_trace (a d : String) (w : World) :
    (extract_archive a d w).2.2 = [] := by
  unfold extract_archive
  split
  · rfl
  · split <;> rfl

theorem hasHashCheck_fetchExtract (urls : List String) (cf xd sd em : String)
    (w : World) : hasHashCheck (fetchExtract urls cf xd sd em w).2.2 = false := by
  unfold fetchExtract
  rcases hm : tryMirrorList urls cf w with ⟨r, w1, t⟩
  have ht : hasHashCheck t = false := by
    have := hasHashCheck_tryMirrorList urls cf w
    rw [hm] at this
    exact this
  rcases r with e | b
  · simpa using ht
  · rcases b
    · simpa using ht
    · by_cases hd : xd ∈ w1.dirs
      · simpa [hd] using ht
      · rcases he : extract_archive cf sd w1 with ⟨r2, w2, t2⟩
        have ht2 : t2 = [] := by
          have := extract_archive_trace cf sd w1
          rw [he] at this
          exact this
        rcases r2 with e2 | u2 <;>
          simp [hd, he, ht2, hasHashCheck_append, ht]

theorem hasHashCheck_llvmMirrorLoop (c : BuildConfig) (ms : List String)
    (w : World) : hasHashCheck (llvmMirrorLoop c ms w).2.2 = false := by
  induction ms generalizing w with
  | nil => simp [llvmMirrorLoop, hasHashCheck]
  | cons m rest ih =>
    unfold llvmMirrorLoop
    rcases hd1 : download_file (m ++ c.llvm_version ++ "/" ++ llvmName1 c)
        (c.download_cache ++ "/" ++ llvmName1 c) none w with ⟨r1, w1, t1⟩
    have ht1 : hasHashCheck t1 = false := by
      have := hasHashCheck_download_file_none
        (m ++ c.llvm_version ++ "/" ++ llvmName1 c)
        (c.download_cache ++ "/" ++ llvmName1 c) w
      rw [hd1] at this
      exact this
    rcases r1 with e1 | b1
    · rcases hd2 : download_file (m ++ c.llvm_version ++ "/" ++ llvmName2 c)
          (c.download_cache ++ "/" ++ llvmName2 c) none w1 with ⟨r2, w2, t2⟩
      have ht2 : hasHashCheck t2 = false := by
        have := hasHashCheck_download_file_none
          (m ++ c.llvm_version ++ "/" ++ llvmName2 c)
          (c.download_cache ++ "/" ++ llvmName2 c) w1
        rw [hd2] at this
        exact this
      rcases r2 with e2 | b2
      · rcases hl : llvmMirrorLoop c rest w2 with ⟨r3, w3, t3⟩
        have ht3 : hasHashCheck t3 = false := by
          have := ih w2
          rw [hl] at this
          exact this
        simp [hd1, hd2, hl, hasHashCheck_append, ht1, ht2, ht3]
      · simp [hd1, hd2, hasHashCheck_append, ht1, ht2]
    · simpa [hd1] using ht1

theorem hasHashCheck_get_llvm_source (c : BuildConfig) (w : World) :
    hasHashCheck (get_llvm_source c w).2.2 = false := by
  unfold get_llvm_source
  rcases hm : llvmMirrorLoop c SourceManager.LLVM_MIRRORS w with ⟨r, w1, t⟩
  have ht : hasHashCheck t = false := by
    have := hasHashCheck_llvmMirrorLoop c SourceManager.LLVM_MIRRORS w
    rw [hm] at this
    exact this
  rcases r with e | b
  · simpa using ht
  · rcases b with _ | name
    · simpa using ht
    · by_cases hd : llvmExtractDir c ∈ w1.dirs
      · simpa [hd] using ht
      · rcases he : extract_archive (c.download_cache ++ "/" ++ name)
            c.source_dir w1 with ⟨r2, w2, t2⟩
        have ht2 : t2 = [] := by
          have := extract_archive_trace (c.download_cache ++ "/" ++ name)
            c.source_dir w1
          rw [he] at this
          exact this
        rcases r2 with e2 | u2 <;>
          simp [hd, he, ht2, hasHashCheck_append, ht]

theorem hasHashCheck_get_libc_source (c : BuildConfig) (w : World) :
    hasHashCheck (get_libc_source c w).2.2 = false := by
  unfold get_libc_source
  by_cases h0 : c.c_library = CLibrary.NONE
  · simp [h0, hasHashCheck]
  · rw [if_neg h0]
    by_cases hv : c.libc_version.getD "" = ""
    · simp [hv, hasHashCheck]
    · rw [if_neg hv]
      have hfetch : ∀ mirrors an es em,
          hasHashCheck (libcFetch c mirrors an es em w).2.2 = false := by
        intro mirrors an es em
        unfold libcFetch
        rcases hf : fetchExtract (mirrors.map (fun m => m ++ an))
            (c.download_cache ++ "/" ++ an) (c.source_dir ++ "/" ++ es)
            c.source_dir em w with ⟨r, w1, t⟩
        have ht : hasHashCheck t = false := by
          have := hasHashCheck_fetchExtract (mirrors.map (fun m => m ++ an))
            (c.download_cache ++ "/" ++ an) (c.source_dir ++ "/" ++ es)
            c.source_dir em w
          rw [hf] at this
          exact this
        rcases r with e | d <;> simpa [hf] using ht
      rcases hlib : c.c_library with _ | _ | _ | _ <;> simp only [hlib]
      · exact hfetch _ _ _ _
      · exact hfetch _ _ _ _
      · exact hfetch _ _ _ _
      · simp [hasHashCheck]

/-- C9: no acquisition path ever verifies a SHA-256 digest — every
`download_file` call site passes no checksum, so every GCC / binutils /
LLVM / C-library acquisition trace is free of `hashCheck` events; and once
the GCC archive exists in the cache, acquisition reuses it purely on
existence, with zero network retrievals. -/
theorem c9_acquisition_never_hashes (c : BuildConfig) (w : World) :
    hasHashCheck (get_gcc_source c w).2.2 = false
    ∧ hasHashCheck (get_binutils_source c w).2.2 = false
    ∧ hasHashCheck (get_llvm_source c w).2.2 = false
    ∧ hasHashCheck (get_libc_source c w).2.2 = false
    ∧ (∀ dg, alookup (gccCacheFile c) w.files = some dg →
        (get_gcc_source c w).2.2 = [Ev.cacheReuse (gccCacheFile c)]
        ∧ countNetGet (get_gcc_source c w).2.2 = 0) := by
  refine ⟨hasHashCheck_fetchExtract _ _ _ _ _ w,
    hasHashCheck_fetchExtract _ _ _ _ _ w,
    hasHashCheck_get_llvm_source c w,
    hasHashCheck_get_libc_source c w, ?_⟩
  intro dg hc
  have h := fetchExtract_cached
    ("https://ftp.gnu.org/gnu/gcc/" ++ "gcc-" ++ c.gcc_version ++ "/"
      ++ gccArchiveName c)
    (("https://mirrors.kernel.org/gnu/gcc/" ++ "gcc-" ++ c.gcc_version ++ "/"
        ++ gccArchiveName c)
      :: ("https://ftpmirror.gnu.org/gcc/" ++ "gcc-" ++ c.gcc_version ++ "/"
        ++ gccArchiveName c) :: [])
    (gccCacheFile c) (gccExtractDir c) c.source_dir
    ("Failed to download GCC " ++ c.gcc_version ++ " from any mirror")
    dg w hc (gccCacheFile_ends_xz c)
  have h22 : (get_gcc_source c w).2.2 = [Ev.cacheReuse (gccCacheFile c)] := h.2.1
  refine ⟨h22, ?_⟩
  rw [h22]
  rfl

/-- Witness for `c9_acquisition_never_hashes` at the default configuration
and a world whose cache already holds the GCC archive. -/
theorem c9_acquisition_never_hashes_witness :
    hasHashCheck (get_gcc_source {}
      { files := [("./.cache/downloads/gcc-13.2.0.tar.xz", "G")] }).2.2 = false
    ∧ (get_gcc_source {}
        { files := [("./.cache/downloads/gcc-13.2.0.tar.xz", "G")] }).2.2
        = [Ev.cacheReuse (gccCacheFile {})]
    ∧ countNetGet (get_gcc_source {}
        { files := [("./.cache/downloads/gcc-13.2.0.tar.xz", "G")] }).2.2 = 0 :=
  ⟨(c9_acquisition_never_hashes {}
      { files := [("./.cache/downloads/gcc-13.2.0.tar.xz", "G")] }).1,
   (c9_acquisition_never_hashes {}
      { files := [("./.cache/downloads/gcc-13.2.0.tar.xz", "G")] }).2.2.2.2 "G" rfl⟩

/-- The trace of a fully failing LLVM mirror loop: both naming variants
are attempted per mirror. -/
def llvmFailTrace (c : BuildConfig) : List String → List Ev
  | [] => []
  | m :: rest =>
    Ev.netGet (m ++ c.llvm_version ++ "/" ++ llvmName1 c)
      :: Ev.netGet (m ++ c.llvm_version ++ "/" ++ llvmName2 c)
      :: llvmFailTrace c rest

theorem llvmMirrorLoop_all_fail (c : BuildConfig) (ms : List String) (w : World)
    (h1 : alookup (c.download_cache ++ "/" ++ llvmName1 c) w.files = none)
    (h2 : alookup (c.download_cache ++ "/" ++ llvmName2 c) w.files = none)
    (hn : ∀ m ∈ ms,
      alookup (m ++ c.llvm_version ++ "/" ++ llvmName1 c) w.net = none
      ∧ alookup (m ++ c.llvm_version ++ "/" ++ llvmName2 c) w.net = none) :
    llvmMirrorLoop c ms w = (Except.ok none, w, llvmFailTrace c ms) := by
  induction ms with
  | nil => simp [llvmMirrorLoop, llvmFailTrace]
  | cons m rest ih =>
    have hm := hn m (by simp)
    have hrest : ∀ x ∈ rest,
        alookup (x ++ c.llvm_version ++ "/" ++ llvmName1 c) w.net = none
        ∧ alookup (x ++ c.llvm_version ++ "/" ++ llvmName2 c) w.net = none :=
      fun x hx => hn x (by simp [hx])
    simp [llvmMirrorLoop, llvmFailTrace,
      download_file_none_miss_fail _ _ w h1 hm.1,
      download_file_none_miss_fail _ _ w h2 hm.2, ih hrest]

theorem get_gcc_source_cached (c : BuildConfig) (w : World) (dg : String)
    (hc : alookup (gccCacheFile c) w.files = some dg) :
    (get_gcc_source c w).1 = Except.ok (gccExtractDir c)
    ∧ (get_gcc_source c w).2.2 = [Ev.cacheReuse (gccCacheFile c)] := by
  have h := fetchExtract_cached
    ("https://ftp.gnu.org/gnu/gcc/" ++ "gcc-" ++ c.gcc_version ++ "/"
      ++ gccArchiveName c)
    (("https://mirrors.kernel.org/gnu/gcc/" ++ "gcc-" ++ c.gcc_version ++ "/"
        ++ gccArchiveName c)
      :: ("https://ftpmirror.gnu.org/gcc/" ++ "gcc-" ++ c.gcc_version ++ "/"
        ++ gccArchiveName c) :: [])
    (gccCacheFile c) (gccExtractDir c) c.source_dir
    ("Failed to download GCC " ++ c.gcc_version ++ " from any mirror")
    dg w hc (gccCacheFile_ends_xz c)
  exact ⟨h.1, h.2.1⟩

/-- C6: mirror fallback and cache semantics of acquisition.  (a) When the
GCC cache is empty, the mirrors `us` all fail and mirror `u` succeeds,
acquisition succeeds with `u`'s artifact in the cache, the attempted
downloads being exactly `us` then `u`; a second acquisition on the
resulting world succeeds with zero network retrievals.  (b) When every GCC
mirror fails, acquisition raises the fatal all-mirrors error.  (c) When
every LLVM mirror fails under both archive naming variants, acquisition
raises the fatal all-mirrors error. -/
theorem c6_mirror_fallback_cache_and_fatal (c : BuildConfig) (w : World)
    (us vs : List String) (u dg : String) :
    (gccUrls c = us ++ u :: vs →
     alookup (gccCacheFile c) w.files = none →
     (∀ x ∈ us, alookup x w.net = none) →
     alookup u w.net = some dg →
       (get_gcc_source c w).1 = Except.ok (gccExtractDir c)
       ∧ (get_gcc_source c w).2.2 = us.map Ev.netGet ++ [Ev.netGet u]
       ∧ alookup (gccCacheFile c) (get_gcc_source c w).2.1.files = some dg
       ∧ (get_gcc_source c ((get_gcc_source c w).2.1)).1
           = Except.ok (gccExtractDir c)
       ∧ countNetGet (get_gcc_source c ((get_gcc_source c w).2.1)).2.2 = 0)
    ∧ (alookup (gccCacheFile c) w.files = none →
       (∀ x ∈ gccUrls c, alookup x w.net = none) →
       (get_gcc_source c w).1
         = Except.error ("Failed to download GCC " ++ c.gcc_version
             ++ " from any mirror"))
    ∧ (alookup (c.download_cache ++ "/" ++ llvmName1 c) w.files = none →
       alookup (c.download_cache ++ "/" ++ llvmName2 c) w.files = none →
       (∀ m ∈ SourceManager.LLVM_MIRRORS,
         alookup (m ++ c.llvm_version ++ "/" ++ llvmName1 c) w.net = none
         ∧ alookup (m ++ c.llvm_version ++ "/" ++ llvmName2 c) w.net = none) →
       (get_llvm_source c w).1
         = Except.error ("Failed to download LLVM " ++ c.llvm_version
             ++ " from any mirror")) := by
  refine ⟨?_, ?_, ?_⟩
  · intro hurls hf hus hu
    have h1 := fetchExtract_fallback us u vs (gccCacheFile c) (gccExtractDir c)
      c.source_dir
      ("Failed to download GCC " ++ c.gcc_version ++ " from any mirror")
      dg w hf hus hu (gccCacheFile_ends_xz c)
    have heq : get_gcc_source c w
        = fetchExtract (us ++ u :: vs) (gccCacheFile c) (gccExtractDir c)
            c.source_dir
            ("Failed to download GCC " ++ c.gcc_version ++ " from any mirror") w := by
      unfold get_gcc_source
      rw [hurls]
    rw [heq] at *
    have hcache : alookup (gccCacheFile c)
        (fetchExtract (us ++ u :: vs) (gccCacheFile c) (gccExtractDir c)
          c.source_dir
          ("Failed to download GCC " ++ c.gcc_version ++ " from any mirror")
          w).2.1.files = some dg := h1.2.2
    have h2 := get_gcc_source_cached c _ dg hcache
    have h2' : (get_gcc_source c ((fetchExtract (us ++ u :: vs) (gccCacheFile c)
        (gccExtractDir c) c.source_dir
        ("Failed to download GCC " ++ c.gcc_version ++ " from any mirror")
        w).2.1)).2.2 = [Ev.cacheReuse (gccCacheFile c)] := h2.2
    refine ⟨h1.1, h1.2.1, hcache, h2.1, ?_⟩
    rw [h2']
    rfl
  · intro hf hn
    exact congrArg Prod.fst (fetchExtract_all_fail (gccUrls c) (gccCacheFile c)
      (gccExtractDir c) c.source_dir
      ("Failed to download GCC " ++ c.gcc_version ++ " from any mirror") w hf hn)
  · intro h1 h2 hn
    unfold get_llvm_source
    rw [llvmMirrorLoop_all_fail c SourceManager.LLVM_MIRRORS w h1 h2 hn]

/-- Witness for `c6_mirror_fallback_cache_and_fatal`: the default
configuration; the first two GCC mirrors fail and the third serves digest
`"G"`; separately, the empty network makes every GCC and LLVM mirror fail. -/
theorem c6_mirror_fallback_cache_and_fatal_witness :
    ((get_gcc_source {}
        { net := [("https://ftpmirror.gnu.org/gcc/gcc-13.2.0/gcc-13.2.0.tar.xz",
            "G")] }).1 = Except.ok (gccExtractDir {})
     ∧ (get_gcc_source {}
        { net := [("https://ftpmirror.gnu.org/gcc/gcc-13.2.0/gcc-13.2.0.tar.xz",
            "G")] }).2.2
        = ["https://ftp.gnu.org/gnu/gcc/gcc-13.2.0/gcc-13.2.0.tar.xz",
           "https://mirrors.kernel.org/gnu/gcc/gcc-13.2.0/gcc-13.2.0.tar.xz"].map
            Ev.netGet
          ++ [Ev.netGet "https://ftpmirror.gnu.org/gcc/gcc-13.2.0/gcc-13.2.0.tar.xz"]
     ∧ alookup (gccCacheFile {})
        (get_gcc_source {}
          { net := [("https://ftpmirror.gnu.org/gcc/gcc-13.2.0/gcc-13.2.0.tar.xz",
              "G")] }).2.1.files = some "G"
     ∧ (get_gcc_source {} ((get_gcc_source {}
          { net := [("https://ftpmirror.gnu.org/gcc/gcc-13.2.0/gcc-13.2.0.tar.xz",
              "G")] }).2.1)).1 = Except.ok (gccExtractDir {})
     ∧ countNetGet (get_gcc_source {} ((get_gcc_source {}
          { net := [("https://ftpmirror.gnu.org/gcc/gcc-13.2.0/gcc-13.2.0.tar.xz",
              "G")] }).2.1)).2.2 = 0)
    ∧ (get_gcc_source {} {}).1
        = Except.error ("Failed to download GCC " ++ "13.2.0" ++ " from any mirror")
    ∧ (get_llvm_source {} {}).1
        = Except.error ("Failed to download LLVM " ++ "17.0.6" ++ " from any mirror") :=
  ⟨(c6_mirror_fallback_cache_and_fatal {}
      { net := [("https://ftpmirror.gnu.org/gcc/gcc-13.2.0/gcc-13.2.0.tar.xz", "G")] }
      ["https://ftp.gnu.org/gnu/gcc/gcc-13.2.0/gcc-13.2.0.tar.xz",
       "https://mirrors.kernel.org/gnu/gcc/gcc-13.2.0/gcc-13.2.0.tar.xz"]
      [] "https://ftpmirror.gnu.org/gcc/gcc-13.2.0/gcc-13.2.0.tar.xz" "G").1
    (by decide) rfl (by decide) (by decide),
   (c6_mirror_fallback_cache_and_fatal {} {} [] [] "" "").2.1 rfl (by decide),
   (c6_mirror_fallback_cache_and_fatal {} {} [] [] "" "").2.2 rfl rfl (by decide)⟩

/-! ## Builders (`GCCBuilder`, `LLVMBuilder`) -/

/-- `','.join(xs)`. -/
def joinComma : List String → String
  | [] => ""
  | [x] => x
  | x :: xs => x ++ "," ++ joinComma xs

/-- The `if clean_build and build_dir.exists(): rmtree(build_dir)` followed
by `build_dir.mkdir(parents=True, exist_ok=True)` preamble of every build
stage. -/
def cleanThenMake (clean : Bool) (d : String) : M Unit := fun w =>
  let w1 := if clean ∧ d ∈ w.dirs
    then { w with dirs := w.dirs.filter (fun x => x ≠ d) } else w
  (Except.ok (), addDirW d w1, [])

/-- A Python `try`/`except Exception` block: capture the error instead of
propagating it. -/
def attempt {α : Type} (x : M α) : M (Except String α) := fun w =>
  match x w with
  | (Except.ok a, w1, t) => (Except.ok (Except.ok a), w1, t)
  | (Except.error e, w1, t) => (Except.ok (Except.error e), w1, t)

/-- `GCCBuilder._build_binutils`: configure (empty flag slots filtered
out), `make -jN`, `make install`. -/
def GCC_build_binutils (c : BuildConfig) (src_dir : String) : M Unit := do
  let bdir := c.build_dir ++ "/binutils"
  cleanThenMake c.clean_build bdir
  let configure_cmd := ([src_dir ++ "/configure",
      "--target=" ++ c.target,
      "--prefix=" ++ c.installPrefix,
      "--disable-nls", "--disable-werror", "--disable-multilib",
      if c.with_sysroot then "--with-sysroot" else "",
      "--enable-gold", "--enable-plugins", "--enable-deterministic-archives"]
      ++ c.configure_flags).filter (fun a => a ≠ "")
  run_command configure_cmd bdir
  run_command ["make", "-j" ++ toString c.jobs] bdir
  run_command ["make", "install"] bdir

/-- `GCCBuilder._build_gcc`: fetch prerequisites, configure
(`--without-headers` only when no C library; sysroot flag when set), build
and install the minimal `all-gcc all-target-libgcc` pass, and then — still
inside this method, *before* `_build_libc` ever runs — when a C library is
requested, immediately run the full `make` and `make install`. -/
def GCC_build_gcc (c : BuildConfig) (src_dir : String) : M Unit := do
  let bdir := c.build_dir ++ "/gcc"
  cleanThenMake c.clean_build bdir
  run_command [src_dir ++ "/contrib/download_prerequisites"] src_dir
  let configure_cmd := ([src_dir ++ "/configure",
      "--target=" ++ c.target,
      "--prefix=" ++ c.installPrefix,
      "--enable-languages=" ++ joinComma c.enable_languages,
      "--disable-nls", "--disable-multilib",
      if c.c_library = CLibrary.NONE then "--without-headers" else "",
      match c.sysroot with
      | some s => "--with-sysroot=" ++ s
      | none => "",
      "--disable-libssp", "--disable-libstdcxx-pch", "--disable-libgomp",
      "--disable-libmudflap", "--enable-checking=release", "--with-gnu-as",
      "--with-gnu-ld"] ++ c.configure_flags).filter (fun a => a ≠ "")
  run_command configure_cmd bdir
  run_command ["make", "-j" ++ toString c.jobs, "all-gcc", "all-target-libgcc"] bdir
  run_command ["make", "install-gcc", "install-target-libgcc"] bdir
  if c.c_library ≠ CLibrary.NONE then do
    run_command ["make", "-j" ++ toString c.jobs] bdir
    run_command ["make", "install"] bdir
  else pure ()

/-- `GCCBuilder._build_glibc` (its configure list is not filtered for empty
strings in the source). -/
def GCC_build_glibc (c : BuildConfig) (src_dir bdir : String) : M Unit := do
  let configure_cmd := [src_dir ++ "/configure",
      "--host=" ++ c.target,
      "--prefix=/usr",
      match c.sysroot with
      | some s => "--with-headers=" ++ s ++ "/usr/include"
      | none => "",
      "--disable-werror",
      if c.target_arch.is_linux then "--enable-obsolete-rpc" else ""]
      ++ c.configure_flags
  run_command configure_cmd bdir
  run_command ["make", "-j" ++ toString c.jobs] bdir
  match c.sysroot with
  | some s => run_command ["make", "DESTDIR=" ++ s, "install"] bdir
  | none => pure ()

/-- `GCCBuilder._build_newlib`. -/
def GCC_build_newlib (c : BuildConfig) (src_dir bdir : String) : M Unit := do
  let configure_cmd := [src_dir ++ "/configure",
      "--target=" ++ c.target,
      "--prefix=" ++ c.installPrefix,
      "--disable-nls", "--disable-newlib-supplied-syscalls", "--enable-multilib"]
      ++ c.configure_flags
  run_command configure_cmd bdir
  run_command ["make", "-j" ++ toString c.jobs] bdir
  run_command ["make", "install"] bdir

/-- `GCCBuilder._build_musl`. -/
def GCC_build_musl (c : BuildConfig) (src_dir bdir : String) : M Unit := do
  let configure_cmd := [src_dir ++ "/configure",
      "--target=" ++ c.target,
      "--prefix=" ++ c.installPrefix,
      "--disable-shared", "--enable-static"]
      ++ c.configure_flags
  run_command configure_cmd bdir
  run_command ["make", "-j" ++ toString c.jobs] bdir
  run_command ["make", "install"] bdir

/-- `GCCBuilder._build_libc`: acquire the family's source, then dispatch
to the family-specific build in `build_dir/<family>`. -/
def GCC_build_libc (c : BuildConfig) : M Unit := do
  let src ← get_libc_source c
  match src with
  | none => pure ()
  | some src_dir => do
    let bdir := c.build_dir ++ "/" ++ c.c_library.value
    cleanThenMake c.clean_build bdir
    match c.c_library with
    | CLibrary.GLIBC => GCC_build_glibc c src_dir bdir
    | CLibrary.NEWLIB => GCC_build_newlib c src_dir bdir
    | CLibrary.MUSL => GCC_build_musl c src_dir bdir
    | CLibrary.NONE => pure ()

/-- `GCCBuilder.build`: acquire sources, build binutils, build GCC
(`_build_gcc`), then — only after `_build_gcc` has fully returned — build
the C library when one is requested; any exception yields `False`. -/
def GCCBuilder_build (c : BuildConfig) : M Bool := do
  let r ← attempt (do
    let gcc_src ← get_gcc_source c
    let binutils_src ← get_binutils_source c
    GCC_build_binutils c binutils_src
    GCC_build_gcc c gcc_src
    if c.c_library ≠ CLibrary.NONE then GCC_build_libc c
    else pure ())
  match r with
  | Except.ok _ => pure true
  | Except.error _ => pure false

/-- `LLVMBuilder._build_llvm`: single CMake + ninja + ninja install stage. -/
def LLVM_build_llvm (c : BuildConfig) (src_dir : String) : M Unit := do
  let bdir := c.build_dir ++ "/llvm"
  cleanThenMake c.clean_build bdir
  let cmake_cmd := ["cmake", src_dir ++ "/llvm",
      "-DCMAKE_INSTALL_PREFIX=" ++ c.installPrefix,
      "-DCMAKE_BUILD_TYPE=" ++ (if c.enable_debug then "Debug" else "Release"),
      "-DLLVM_ENABLE_PROJECTS=" ++ joinComma c.enable_components,
      "-DLLVM_TARGETS_TO_BUILD=" ++
        (if c.target_arch.arch = "" then "X86;AArch64;ARM;RISCV"
         else get_llvm_target c.target_arch.arch),
      "-DLLVM_DEFAULT_TARGET_TRIPLE=" ++ c.target,
      if c.enable_assertions then "-DLLVM_ENABLE_ASSERTIONS=ON"
        else "-DLLVM_ENABLE_ASSERTIONS=OFF",
      if c.enable_lto then "-DLLVM_ENABLE_LTO=ON" else "-DLLVM_ENABLE_LTO=OFF",
      "-DLLVM_INCLUDE_TESTS=OFF", "-DLLVM_INCLUDE_EXAMPLES=OFF",
      "-DLLVM_INCLUDE_BENCHMARKS=OFF", "-DLLVM_ENABLE_TERMINFO=OFF",
      "-DLLVM_ENABLE_ZLIB=OFF", "-DLLVM_ENABLE_ZSTD=OFF",
      "-G", "Ninja"] ++ c.cmake_flags
  run_command cmake_cmd bdir
  run_command ["ninja", "-j" ++ toString c.jobs] bdir
  run_command ["ninja", "install"] bdir

/-- `LLVMBuilder._build_libc_for_llvm`: the body is a bare `pass` — no
work, no events, and crucially no error of any kind. -/
def LLVM_build_libc_for_llvm (_c : BuildConfig) : M Unit :=
  pure ()

/-- `LLVMBuilder.build`: acquire the LLVM source, build it, then call the
libc stub when a C library is requested; any exception yields `False`. -/
def LLVMBuilder_build (c : BuildConfig) : M Bool := do
  let r ← attempt (do
    let llvm_src ← get_llvm_source c
    LLVM_build_llvm c llvm_src
    if c.c_library ≠ CLibrary.NONE then LLVM_build_libc_for_llvm c
    else pure ())
  match r with
  | Except.ok _ => pure true
  | Except.error _ => pure false

/-- A GCC-family configuration requesting a C library (newlib), after
derivation. -/
def cfgGccNewlib : BuildConfig :=
  postInit { toolchain := ToolchainType.GCC, target := "arm-none-eabi",
             c_library := CLibrary.NEWLIB }

/-- A world where the first mirror of each required component succeeds and
every external command exits 0. -/
def worldGccNewlib : World :=
  { net := [("https://ftp.gnu.org/gnu/gcc/gcc-13.2.0/gcc-13.2.0.tar.xz", "G"),
            ("https://ftp.gnu.org/gnu/binutils/binutils-2.42.tar.xz", "B"),
            ("https://sourceware.org/pub/newlib/newlib-4.3.0.tar.gz", "N")] }

/-- C1 (code evaluated at the failing input): for a GCC-family run with a
C library requested, the executed sequence is binutils, then the compiler
bootstrap (`all-gcc all-target-libgcc` + its install), then — *still before
any C-library step* — the full compiler `make` and `make install`
(triggered at the end of `_build_gcc`), and only after that the newlib
download and build.  In particular the full compiler build (trace position
9) strictly precedes the first C-library event (position 11), contradicting
the claimed order [binutils, bootstrap, libc, compiler-finish]. -/
theorem c1_full_build_precedes_libc :
    (GCCBuilder_build cfgGccNewlib worldGccNewlib).1 = Except.ok true
    ∧ (GCCBuilder_build cfgGccNewlib worldGccNewlib).2.2 =
      [Ev.netGet "https://ftp.gnu.org/gnu/gcc/gcc-13.2.0/gcc-13.2.0.tar.xz",
       Ev.netGet "https://ftp.gnu.org/gnu/binutils/binutils-2.42.tar.xz",
       Ev.cmd "./build/binutils"
         ["./sources/binutils-2.42/configure", "--target=arm-none-eabi",
          "--prefix=./install", "--disable-nls", "--disable-werror",
          "--disable-multilib", "--enable-gold", "--enable-plugins",
          "--enable-deterministic-archives"],
       Ev.cmd "./build/binutils" ["make", "-j4"],
       Ev.cmd "./build/binutils" ["make", "install"],
       Ev.cmd "./sources/gcc-13.2.0"
         ["./sources/gcc-13.2.0/contrib/download_prerequisites"],
       Ev.cmd "./build/gcc"
         ["./sources/gcc-13.2.0/configure", "--target=arm-none-eabi",
          "--prefix=./install", "--enable-languages=c,c++", "--disable-nls",
          "--disable-multilib", "--disable-libssp", "--disable-libstdcxx-pch",
          "--disable-libgomp", "--disable-libmudflap", "--enable-checking=release",
          "--with-gnu-as", "--with-gnu-ld"],
       Ev.cmd "./build/gcc" ["make", "-j4", "all-gcc", "all-target-libgcc"],
       Ev.cmd "./build/gcc" ["make", "install-gcc", "install-target-libgcc"],
       Ev.cmd "./build/gcc" ["make", "-j4"],
       Ev.cmd "./build/gcc" ["make", "install"],
       Ev.netGet "https://sourceware.org/pub/newlib/newlib-4.3.0.tar.gz",
       Ev.cmd "./build/newlib"
         ["./sources/newlib-4.3.0/configure", "--target=arm-none-eabi",
          "--prefix=./install", "--disable-nls",
          "--disable-newlib-supplied-syscalls", "--enable-multilib"],
       Ev.cmd "./build/newlib" ["make", "-j4"],
       Ev.cmd "./build/newlib" ["make", "install"]]
    ∧ ((GCCBuilder_build cfgGccNewlib worldGccNewlib).2.2.findIdx
        (fun e => e = Ev.cmd "./build/gcc" ["make", "-j4"]))
      < ((GCCBuilder_build cfgGccNewlib worldGccNewlib).2.2.findIdx
        (fun e => e = Ev.netGet "https://sourceware.org/pub/newlib/newlib-4.3.0.tar.gz"))
    ∧ ((GCCBuilder_build cfgGccNewlib worldGccNewlib).2.2.findIdx
        (fun e => e = Ev.netGet "https://sourceware.org/pub/newlib/newlib-4.3.0.tar.gz"))
      < (GCCBuilder_build cfgGccNewlib worldGccNewlib).2.2.length := by
  refine ⟨rfl, by decide, by decide, by decide⟩

/-- An LLVM-family configuration requesting a C library (musl), after
derivation. -/
def cfgLlvmMusl : BuildConfig :=
  postInit { toolchain := ToolchainType.LLVM, target := "riscv64-unknown-elf",
             c_library := CLibrary.MUSL }

/-- A world where the first LLVM mirror succeeds and every external command
exits 0. -/
def worldLlvmMusl : World :=
  { net := [("https://github.com/llvm/llvm-project/releases/download/llvmorg-17.0.6/llvm-project-17.0.6.src.tar.xz",
             "L")] }

/-- C3 (code evaluated at the failing input): for an LLVM-family run with a
C library requested, the call path does reach the libc stage, but
`_build_libc_for_llvm` is a bare `pass` — it performs no work and raises
nothing — and the pipeline reports overall success (`True`); no
"not implemented" error result ever surfaces.  The full trace shows the
single LLVM stage followed by nothing at all for the libc stage. -/
theorem c3_llvm_libc_stub_reports_success :
    cfgLlvmMusl.c_library ≠ CLibrary.NONE
    ∧ (LLVMBuilder_build cfgLlvmMusl worldLlvmMusl).1 = Except.ok true
    ∧ (LLVMBuilder_build cfgLlvmMusl worldLlvmMusl).2.2 =
      [Ev.netGet "https://github.com/llvm/llvm-project/releases/download/llvmorg-17.0.6/llvm-project-17.0.6.src.tar.xz",
       Ev.cmd "./build/llvm"
         ["cmake", "./sources/llvm-project-17.0.6/llvm",
          "-DCMAKE_INSTALL_PREFIX=./install", "-DCMAKE_BUILD_TYPE=Release",
          "-DLLVM_ENABLE_PROJECTS=clang,lld,compiler-rt",
          "-DLLVM_TARGETS_TO_BUILD=RISCV",
          "-DLLVM_DEFAULT_TARGET_TRIPLE=riscv64-unknown-elf",
          "-DLLVM_ENABLE_ASSERTIONS=OFF", "-DLLVM_ENABLE_LTO=OFF",
          "-DLLVM_INCLUDE_TESTS=OFF", "-DLLVM_INCLUDE_EXAMPLES=OFF",
          "-DLLVM_INCLUDE_BENCHMARKS=OFF", "-DLLVM_ENABLE_TERMINFO=OFF",
          "-DLLVM_ENABLE_ZLIB=OFF", "-DLLVM_ENABLE_ZSTD=OFF", "-G", "Ninja"],
       Ev.cmd "./build/llvm" ["ninja", "-j4"],
       Ev.cmd "./build/llvm" ["ninja", "install"]]
    ∧ LLVM_build_libc_for_llvm cfgLlvmMusl worldLlvmMusl
        = (Except.ok (), worldLlvmMusl, []) := by
  refine ⟨by decide, rfl, by decide, rfl⟩

end BuildToolchain
